import Mathlib

/-!
Verification of the microfi message-bus design (Pavelkv94/microfi).

The repository ships two React hooks, `useHostBus` and `useMicrofrontendBus`,
documented in `src/README.md`. The README contains the host application's
inbound `messageHandler` verbatim (lines 114-146); that code is embedded
here directly. The hook implementations themselves (peer registry,
wire codec, subscription registry) are not in the repository snapshot, so
those operations are modelled from the specification, as marked on each
definition.

JavaScript values flowing through the bus are modelled by a `Json` inductive;
exceptions (JSON.parse on malformed input, property access on
null/undefined) are modelled with `Except JsError`; the host application's
try/catch block is the `Except` handler in `messageHandler`.
-/

namespace Microfi

/-- JSON value as produced by JSON.parse: null, boolean, number, string,
array or object (object = association list of fields, first match wins). -/
inductive Json where
  | null
  | bool (b : Bool)
  | num (n : Int)
  | str (s : String)
  | arr (elems : List Json)
  | obj (fields : List (String × Json))

/-- First field of the association list with the given key, if any. -/
def lookupField : List (String × Json) → String → Option Json
  | [], _ => none
  | (k, v) :: rest, key => if k = key then some v else lookupField rest key

/-- Transport payload of one inbound message (the `event.data` string),
modelled by its parse status: either a string that is not valid JSON, or
the JSON value it parses to. -/
inductive Wire where
  | notJson (s : String)
  | json (j : Json)

/-- JavaScript runtime faults that the inbound handlers can raise:
a JSON.parse SyntaxError, or a TypeError from reading a property of
null/undefined. -/
inductive JsError where
  | syntaxError (raw : String)
  | typeError

/-- Behaviour of the bare JSON.parse call on the transport payload:
raises a SyntaxError on a malformed string, otherwise returns the value. -/
def jsonParse : Wire → Except JsError Json
  | .notJson s => .error (.syntaxError s)
  | .json j => .ok j

/-- JavaScript property read `j[k]` on a parsed value: throws TypeError on
null, yields the field (or undefined, i.e. `none`) on an object, and
undefined on every other primitive. -/
def jsGetProp (j : Json) (k : String) : Except JsError (Option Json) :=
  match j with
  | .null => .error .typeError
  | .obj fields => .ok (lookupField fields k)
  | _ => .ok none

/-- JavaScript property read `v[k]` where `v` may be undefined (`none`):
reading a property of undefined throws TypeError. -/
def jsGetPropOpt (v : Option Json) (k : String) : Except JsError (Option Json) :=
  match v with
  | none => .error .typeError
  | some j => jsGetProp j k

/-- Inbound transport event as delivered to a message handler: the declared
sender origin, the raw payload, and the sender's messaging handle
(`event.source`), identified here by a natural number. -/
structure MessageEvent where
  origin : String
  data : Wire
  source : Nat

/-- Action, the sole message unit crossing the bus: a string `type` tag and
an optional opaque payload. -/
structure Action where
  type : String
  payload : Option Json

/-- Decode failure values of the wire codec: input not parseable, or parsed
value lacking a string `type` field. -/
inductive DecodeError where
  | notParseable (raw : String)
  | missingType

/-- JSON object representation of an Action: a `type` field, plus a
`payload` field exactly when the payload is present (JSON.stringify omits
undefined fields). -/
def actionToJson (a : Action) : Json :=
  .obj (("type", .str a.type) ::
    (match a.payload with
     | some p => [("payload", p)]
     | none => []))

/-- Modelled from the spec: the wire codec's `encode` (§4.1); the hook source
implementing it is not in the repository snapshot. Serializes an Action to
the transport payload. -/
def encode (a : Action) : Wire :=
  .json (actionToJson a)

/-- Structural half of `decode`: a parsed JSON value is an Action exactly
when it is an object with a string `type` field; the `payload` field, when
present, is taken as-is. -/
def jsonToAction (j : Json) : Except DecodeError Action :=
  match j with
  | .obj fields =>
    match lookupField fields "type" with
    | some (.str t) => .ok ⟨t, lookupField fields "payload"⟩
    | _ => .error .missingType
  | _ => .error .missingType

/-- Modelled from the spec: the wire codec's `decode` (§4.1); the hook source
implementing it is not in the repository snapshot. Returns a DecodeError
value, never raises. -/
def decode (w : Wire) : Except DecodeError Action :=
  match w with
  | .notJson s => .error (.notParseable s)
  | .json j => jsonToAction j

/-- Inputs the codec can decode, stated as a predicate on the wire: the
payload parses as JSON to an object carrying a string `type` field. The
claims about decode failure quantify over the complement of this set. -/
def hasStringTypeWire : Wire → Bool
  | .notJson _ => false
  | .json (.obj fields) =>
    match lookupField fields "type" with
    | some (.str _) => true
    | _ => false
  | .json _ => false

/-! ## Host side -/

/-- Host application state from the README example: the hook's peer
registry (list of peer handles, deduplicated by `registerIframe`) and the
application's `dataFromRemote` React state. -/
structure HostApp where
  peers : List Nat
  dataFromRemote : Option Json

/-- Observable side effects of the host inbound handler, in order. -/
inductive HostEffect where
  | warnBlocked (origin : String)
  | warnUnhandled
  | errorCaught
  | registered (source : Nat)
  | setData (v : Option Json)

/-- Modelled from the spec: `registerIframe` of `useHostBus` (§4.4); the hook
source is not in the repository snapshot. Extracts the peer handle from the
event (`event.source`) and adds it to `peers` if not already present; it
performs no inspection of the event's data or origin. -/
def registerIframe (st : HostApp) (ev : MessageEvent) : HostApp :=
  if ev.source ∈ st.peers then st
  else { st with peers := st.peers ++ [ev.source] }

/-- Body of the host messageHandler's try block (README lines 117-132):
parse the data, switch on `action.type`; `IFRAME-LOADED` registers the
iframe, `CUSTOM_ACTION` stores `action.payload.data`, anything else logs a
warning. Exceptions from parse or property access propagate as `.error`. -/
def hostTryBody (st : HostApp) (ev : MessageEvent) :
    Except JsError (HostApp × List HostEffect) := do
  let j ← jsonParse ev.data
  let ty ← jsGetProp j "type"
  match ty with
  | some (.str "IFRAME-LOADED") =>
    pure (registerIframe st ev, [.registered ev.source])
  | some (.str "CUSTOM_ACTION") => do
    let payload ← jsGetProp j "payload"
    let d ← jsGetPropOpt payload "data"
    pure ({ st with dataFromRemote := d }, [.setData d])
  | _ => pure (st, [.warnUnhandled])

/-- Host inbound messageHandler from the README (lines 114-139): origin
allow-list check first; inside it, the try/catch around parse and dispatch;
untrusted origins are only warned about, caught exceptions only logged. -/
def messageHandler (whitelist : List String) (st : HostApp)
    (ev : MessageEvent) : HostApp × List HostEffect :=
  if whitelist.contains ev.origin then
    match hostTryBody st ev with
    | .ok r => r
    | .error _ => (st, [.errorCaught])
  else (st, [.warnBlocked ev.origin])

/-- Per-peer send outcome used to model transport failures. -/
inductive SendOutcome where
  | sent
  | failed
deriving DecidableEq

/-- Modelled from the spec: `sendToRemote` of `useHostBus` (§4.4); the hook
source is not in the repository snapshot. Encodes the action once and
produces one delivery attempt per registered peer, in registry order. -/
def sendToRemote (st : HostApp) (a : Action) : List (Nat × Wire) :=
  st.peers.map (fun p => (p, encode a))

/-- Modelled from the spec: `sendToRemote` under a per-peer transport
failure model (§4.4, §7 SendFailure). Each peer's attempt outcome depends
only on whether its own send fails; no failure aborts the broadcast. -/
def sendToRemoteWith (st : HostApp) (a : Action) (fails : Nat → Bool) :
    List (Nat × Wire × SendOutcome) :=
  st.peers.map (fun p => (p, encode a, if fails p then .failed else .sent))

/-! ## Child side -/

/-- One subscription registration on the child bus: its cancellation id,
the action type it listens to, and the identity of its callback. -/
structure Registration where
  id : Nat
  type : String
  cb : Nat

/-- Child bus state (§4.3): the single trusted host origin (immutable), the
ordered subscription registry, and the next fresh cancellation id. -/
structure ChildBus where
  trustedOrigin : String
  subs : List Registration
  nextId : Nat

/-- Child bus with no subscriptions. -/
def mkChildBus (origin : String) : ChildBus :=
  ⟨origin, [], 0⟩

/-- Modelled from the spec: `subscribe` of `useMicrofrontendBus` (§4.3); the
hook source is not in the repository snapshot. Appends a registration for
the type and returns the new state together with the cancellation id. -/
def subscribe (b : ChildBus) (t : String) (cb : Nat) : ChildBus × Nat :=
  ({ b with subs := b.subs ++ [⟨b.nextId, t, cb⟩], nextId := b.nextId + 1 },
   b.nextId)

/-- Modelled from the spec: the cancellation handle returned by `subscribe`
(§4.3). Removes exactly the registration carrying the given id. -/
def unsubscribe (b : ChildBus) (regId : Nat) : ChildBus :=
  { b with subs := b.subs.filter (fun r => r.id ≠ regId) }

/-- Dispatch of one decoded Action: every registration whose type matches,
invoked in registration order, each passed the decoded Action. The result
lists the callback invocations in order. -/
def dispatch (b : ChildBus) (a : Action) : List (Nat × Action) :=
  (b.subs.filter (fun r => r.type = a.type)).map (fun r => (r.cb, a))

/-- Observable non-dispatch side effects of the child inbound handler. -/
inductive ChildEffect where
  | warnBlocked (origin : String)
  | decodeErrorLogged
deriving DecidableEq

/-- Modelled from the spec: the child bus inbound handler (§4.3); the hook
source is not in the repository snapshot. Origin guard first (equality with
the trusted origin), then decode, then dispatch; origin and decode failures
are logged and dropped. Returns the callback invocations and the logged
effects. -/
def childInbound (b : ChildBus) (ev : MessageEvent) :
    List (Nat × Action) × List ChildEffect :=
  if ev.origin = b.trustedOrigin then
    match decode ev.data with
    | .error _ => ([], [.decodeErrorLogged])
    | .ok a => (dispatch b a, [])
  else ([], [.warnBlocked ev.origin])

/-! ## Theorems -/

/-- Claim C2: round-trip law. For every Action `a` (whose payload, being a
`Json` value, is JSON-representable by construction), decoding the encoding
of `a` succeeds and yields an Action equal to `a`; the codec adds or
removes nothing beyond the serialization itself. -/
theorem decode_encode_roundtrip (a : Action) : decode (encode a) = .ok a := by
  cases a with
  | mk t p => cases p <;> rfl

/-- Claim C1: origin exclusion. An inbound message whose origin is not in
the host allow-list leaves the host handler at the warn-blocked branch with
state untouched (no peer registered, no data callback), and an inbound
message whose origin differs from the child's trusted origin produces no
callback invocation; in both cases the result is independent of the
message data, so the origin predicate is evaluated before any decode or
dispatch work. -/
theorem origin_exclusion (wl : List String) (st : HostApp) (ev : MessageEvent)
    (b : ChildBus) (ev2 : MessageEvent)
    (hHost : ev.origin ∉ wl) (hChild : ev2.origin ≠ b.trustedOrigin) :
    messageHandler wl st ev = (st, [.warnBlocked ev.origin]) ∧
    childInbound b ev2 = ([], [.warnBlocked ev2.origin]) ∧
    (∀ d, messageHandler wl st { ev with data := d } =
      messageHandler wl st ev) ∧
    (∀ d, childInbound b { ev2 with data := d } = childInbound b ev2) := by
  refine ⟨?_, ?_, ?_, ?_⟩ <;>
    simp [messageHandler, childInbound, hHost, hChild]

/-- Witness for C1 at concrete inputs: a hostile origin is blocked on both
sides. -/
theorem origin_exclusion_witness :
    messageHandler ["http://localhost:5001"] ⟨[], none⟩
      ⟨"http://evil.example", .notJson "x", 7⟩ =
      (⟨[], none⟩, [.warnBlocked "http://evil.example"]) ∧
    childInbound (mkChildBus "http://localhost:5000")
      ⟨"http://evil.example", .notJson "x", 7⟩ =
      ([], [.warnBlocked "http://evil.example"]) ∧
    (∀ d, messageHandler ["http://localhost:5001"] ⟨[], none⟩
      ⟨"http://evil.example", d, 7⟩ =
      messageHandler ["http://localhost:5001"] ⟨[], none⟩
        ⟨"http://evil.example", .notJson "x", 7⟩) ∧
    (∀ d, childInbound (mkChildBus "http://localhost:5000")
      ⟨"http://evil.example", d, 7⟩ =
      childInbound (mkChildBus "http://localhost:5000")
        ⟨"http://evil.example", .notJson "x", 7⟩) :=
  origin_exclusion ["http://localhost:5001"] ⟨[], none⟩
    ⟨"http://evil.example", .notJson "x", 7⟩
    (mkChildBus "http://localhost:5000")
    ⟨"http://evil.example", .notJson "x", 7⟩
    (by decide) (by decide)

/-- Claim C3: deduplication on registration. Registering two events that
carry the same peer handle yields exactly one entry for that handle in the
peer registry (the second call is a no-op), and a subsequent sendToRemote
makes exactly one delivery attempt for that logical peer. -/
theorem registerIframe_dedup (st : HostApp) (ev ev2 : MessageEvent)
    (a : Action) (hsame : ev2.source = ev.source)
    (hnew : ev.source ∉ st.peers) :
    registerIframe (registerIframe st ev) ev2 = registerIframe st ev ∧
    (registerIframe (registerIframe st ev) ev2).peers.count ev.source = 1 ∧
    (sendToRemote (registerIframe (registerIframe st ev) ev2) a).countP
      (fun pr => pr.1 == ev.source) = 1 := by
  have h1 : registerIframe st ev =
      { st with peers := st.peers ++ [ev.source] } := by
    simp [registerIframe, hnew]
  have h2 : registerIframe (registerIframe st ev) ev2 =
      registerIframe st ev := by
    rw [h1]
    simp [registerIframe, hsame]
  refine ⟨h2, ?_, ?_⟩
  · rw [h2, h1]
    simp [List.count_append, List.count_eq_zero.mpr hnew, List.count_singleton]
  · rw [h2, h1]
    have h3 : List.countP (fun p => p == ev.source) st.peers = 0 := by
      simpa [List.count] using List.count_eq_zero.mpr hnew
    simp [sendToRemote, List.countP_map, Function.comp_def,
      List.countP_append, h3]

/-- Witness for C3: registering peer 7 twice from an empty registry leaves
one entry and one delivery attempt. -/
theorem registerIframe_dedup_witness :
    registerIframe (registerIframe ⟨[], none⟩
        ⟨"http://localhost:5001", .notJson "", 7⟩)
        ⟨"http://localhost:5001", .notJson "", 7⟩ =
      registerIframe ⟨[], none⟩ ⟨"http://localhost:5001", .notJson "", 7⟩ ∧
    (registerIframe (registerIframe ⟨[], none⟩
        ⟨"http://localhost:5001", .notJson "", 7⟩)
        ⟨"http://localhost:5001", .notJson "", 7⟩).peers.count 7 = 1 ∧
    (sendToRemote (registerIframe (registerIframe ⟨[], none⟩
        ⟨"http://localhost:5001", .notJson "", 7⟩)
        ⟨"http://localhost:5001", .notJson "", 7⟩) ⟨"PING", none⟩).countP
      (fun pr => pr.1 == 7) = 1 :=
  registerIframe_dedup ⟨[], none⟩
    ⟨"http://localhost:5001", .notJson "", 7⟩
    ⟨"http://localhost:5001", .notJson "", 7⟩
    ⟨"PING", none⟩ rfl (by decide)

/-- Claim C4: no fatal conditions. A rejected inbound message — untrusted
origin or a body that raises (malformed JSON, hostile payload shape) —
leaves the host state unchanged and invokes no child subscriber; moreover
every fault raised inside the host try block is caught and converted into
a logged effect with unchanged state, so no thrown fault escapes the
inbound handler (the handlers are total functions into ordinary results). -/
theorem no_fatal_conditions (wl : List String) (st : HostApp)
    (ev : MessageEvent) (b : ChildBus) (ev2 : MessageEvent)
    (hrej : ev.origin ∉ wl ∨ ∃ e, hostTryBody st ev = .error e)
    (hrej2 : ev2.origin ≠ b.trustedOrigin ∨ ∃ e, decode ev2.data = .error e) :
    (messageHandler wl st ev).1 = st ∧ (childInbound b ev2).1 = [] ∧
    (∀ ev3 e, hostTryBody st ev3 = .error e → ev3.origin ∈ wl →
      messageHandler wl st ev3 = (st, [.errorCaught])) := by
  refine ⟨?_, ?_, ?_⟩
  · rcases hrej with h | ⟨e, he⟩
    · simp [messageHandler, h]
    · unfold messageHandler
      split
      · rw [he]
      · rfl
  · rcases hrej2 with h | ⟨e, he⟩
    · simp [childInbound, h]
    · unfold childInbound
      split
      · rw [he]
      · rfl
  · intro ev3 e he hmem
    simp [messageHandler, hmem, he]

/-- Witness for C4: a malformed payload from a trusted origin is rejected
on both sides without state change, and the host catch converts the parse
fault into a log. -/
theorem no_fatal_conditions_witness :
    (messageHandler ["http://localhost:5001"] ⟨[3], none⟩
      ⟨"http://localhost:5001", .notJson "not json", 3⟩).1 = ⟨[3], none⟩ ∧
    (childInbound (mkChildBus "http://localhost:5000")
      ⟨"http://localhost:5000", .notJson "not json", 3⟩).1 = [] ∧
    (∀ ev3 e, hostTryBody ⟨[3], none⟩ ev3 = .error e →
      ev3.origin ∈ ["http://localhost:5001"] →
      messageHandler ["http://localhost:5001"] ⟨[3], none⟩ ev3 =
        (⟨[3], none⟩, [.errorCaught])) :=
  no_fatal_conditions ["http://localhost:5001"] ⟨[3], none⟩
    ⟨"http://localhost:5001", .notJson "not json", 3⟩
    (mkChildBus "http://localhost:5000")
    ⟨"http://localhost:5000", .notJson "not json", 3⟩
    (Or.inr ⟨.syntaxError "not json", rfl⟩)
    (Or.inr ⟨.notParseable "not json", rfl⟩)

/-- Claim C5: subscriber fan-out and ordering. Subscribing `c1` and then
`c2` to the same type on a fresh child bus and delivering one trusted,
decodable Action of that type invokes `c1` first and then `c2`, each
exactly once, each receiving the decoded Action. -/
theorem subscriber_fanout_order (origin t : String) (c1 c2 : Nat)
    (ev : MessageEvent) (a : Action)
    (hor : ev.origin = origin) (hdec : decode ev.data = .ok a)
    (hty : a.type = t) :
    childInbound (subscribe (subscribe (mkChildBus origin) t c1).1 t c2).1
      ev = ([(c1, a), (c2, a)], []) := by
  simp [childInbound, subscribe, mkChildBus, dispatch, hor, hdec, hty]

/-- Witness for C5: two subscribers to TOKEN_CREATED each fire once, in
order, on one delivered TOKEN_CREATED action. -/
theorem subscriber_fanout_order_witness :
    childInbound
      (subscribe (subscribe (mkChildBus "http://localhost:5000")
        "TOKEN_CREATED" 1).1 "TOKEN_CREATED" 2).1
      ⟨"http://localhost:5000", encode ⟨"TOKEN_CREATED", none⟩, 0⟩ =
      ([(1, ⟨"TOKEN_CREATED", none⟩), (2, ⟨"TOKEN_CREATED", none⟩)], []) :=
  subscriber_fanout_order "http://localhost:5000" "TOKEN_CREATED" 1 2
    ⟨"http://localhost:5000", encode ⟨"TOKEN_CREATED", none⟩, 0⟩
    ⟨"TOKEN_CREATED", none⟩ rfl rfl rfl

/-- Claim C6: cancellation removes only its own registration. After
subscribing `c1` then `c2` for the same type, invoking the cancellation
handle returned for `c1` leaves exactly the sibling registration for `c2`
in place, and a dispatch beginning afterwards invokes `c2` but not `c1`. -/
theorem unsubscribe_removes_only_own (origin t : String) (c1 c2 : Nat)
    (ev : MessageEvent) (a : Action)
    (hor : ev.origin = origin) (hdec : decode ev.data = .ok a)
    (hty : a.type = t) :
    (unsubscribe (subscribe (subscribe (mkChildBus origin) t c1).1 t c2).1
        (subscribe (mkChildBus origin) t c1).2).subs = [⟨1, t, c2⟩] ∧
    childInbound
      (unsubscribe (subscribe (subscribe (mkChildBus origin) t c1).1 t c2).1
        (subscribe (mkChildBus origin) t c1).2) ev = ([(c2, a)], []) := by
  constructor <;>
    simp [unsubscribe, subscribe, mkChildBus, childInbound, dispatch,
      hor, hdec, hty]

/-- Witness for C6: cancelling the first TOKEN_CREATED subscription leaves
only the second, which alone receives the next dispatch. -/
theorem unsubscribe_removes_only_own_witness :
    (unsubscribe (subscribe (subscribe (mkChildBus "http://localhost:5000")
        "TOKEN_CREATED" 1).1 "TOKEN_CREATED" 2).1
        (subscribe (mkChildBus "http://localhost:5000")
          "TOKEN_CREATED" 1).2).subs = [⟨1, "TOKEN_CREATED", 2⟩] ∧
    childInbound
      (unsubscribe (subscribe (subscribe (mkChildBus "http://localhost:5000")
        "TOKEN_CREATED" 1).1 "TOKEN_CREATED" 2).1
        (subscribe (mkChildBus "http://localhost:5000")
          "TOKEN_CREATED" 1).2)
      ⟨"http://localhost:5000", encode ⟨"TOKEN_CREATED", none⟩, 0⟩ =
      ([(2, ⟨"TOKEN_CREATED", none⟩)], []) :=
  unsubscribe_removes_only_own "http://localhost:5000" "TOKEN_CREATED" 1 2
    ⟨"http://localhost:5000", encode ⟨"TOKEN_CREATED", none⟩, 0⟩
    ⟨"TOKEN_CREATED", none⟩ rfl rfl rfl

/-- Claim C7: broadcast isolation. sendToRemote encodes the action once
(every delivery attempt carries the same wire value) and attempts delivery
exactly once per registered peer; a peer whose own send does not fail
receives its delivery regardless of which other peers fail. -/
theorem broadcast_isolation (st : HostApp) (a : Action) (fails : Nat → Bool)
    (p : Nat) (hp : p ∈ st.peers) (hnd : st.peers.Nodup) :
    (sendToRemoteWith st a fails).countP (fun e => e.1 == p) = 1 ∧
    (fails p = false →
      (p, encode a, SendOutcome.sent) ∈ sendToRemoteWith st a fails) ∧
    (∀ q w o, (q, w, o) ∈ sendToRemoteWith st a fails → w = encode a) := by
  refine ⟨?_, ?_, ?_⟩
  · simp only [sendToRemoteWith, List.countP_map, Function.comp_def]
    simpa [List.count] using List.count_eq_one_of_mem hnd hp
  · intro hf
    have hmem : (p, encode a,
        if fails p then SendOutcome.failed else SendOutcome.sent)
        ∈ sendToRemoteWith st a fails := List.mem_map_of_mem _ hp
    simpa [hf] using hmem
  · intro q w o hmem
    simp only [sendToRemoteWith, List.mem_map] at hmem
    obtain ⟨x, _, hx⟩ := hmem
    cases hx
    rfl

/-- Witness for C7: with peers 3 and 5 and the send to 3 failing, peer 5
still gets exactly one, successful, delivery of the shared encoding. -/
theorem broadcast_isolation_witness :
    (sendToRemoteWith ⟨[3, 5], none⟩ ⟨"PING", none⟩
      (fun q => q == 3)).countP (fun e => e.1 == 5) = 1 ∧
    ((fun q => q == 3) 5 = false →
      (5, encode ⟨"PING", none⟩, SendOutcome.sent) ∈
        sendToRemoteWith ⟨[3, 5], none⟩ ⟨"PING", none⟩ (fun q => q == 3)) ∧
    (∀ q w o, (q, w, o) ∈
        sendToRemoteWith ⟨[3, 5], none⟩ ⟨"PING", none⟩ (fun q => q == 3) →
      w = encode ⟨"PING", none⟩) :=
  broadcast_isolation ⟨[3, 5], none⟩ ⟨"PING", none⟩ (fun q => q == 3) 5
    (by decide) (by decide)

/-- Claim C8: decode failure is a returned value. For every inbound wire
that is not parseable JSON or parses to a value without a string `type`
field, decode produces a DecodeError value (it is a total function with no
exception channel), and the child inbound handler invokes no subscriber on
that input. -/
theorem decode_failure_is_value (b : ChildBus) (ev : MessageEvent)
    (hor : ev.origin = b.trustedOrigin)
    (hbad : hasStringTypeWire ev.data = false) :
    (∃ e, decode ev.data = .error e) ∧ (childInbound b ev).1 = [] := by
  have herr : ∃ e, decode ev.data = .error e := by
    cases hw : ev.data with
    | notJson s => exact ⟨.notParseable s, rfl⟩
    | json j =>
      rw [hw] at hbad
      refine ⟨.missingType, ?_⟩
      cases j with
      | obj fields =>
        simp only [hasStringTypeWire] at hbad
        simp only [decode, jsonToAction]
        cases hl : lookupField fields "type" with
        | none => simp [hl]
        | some v => cases v <;> simp_all [hl]
      | null => rfl
      | bool b2 => rfl
      | num n => rfl
      | str s => rfl
      | arr es => rfl
  obtain ⟨e, he⟩ := herr
  exact ⟨⟨e, he⟩, by simp [childInbound, hor, he]⟩

/-- Witness for C8: the raw string "not json" decodes to an error and
triggers no subscriber on a child bus with a live subscription. -/
theorem decode_failure_is_value_witness :
    (∃ e, decode (.notJson "not json") = .error e) ∧
    (childInbound
      (subscribe (mkChildBus "http://localhost:5000")
        "TOKEN_CREATED" 1).1
      ⟨"http://localhost:5000", .notJson "not json", 0⟩).1 = [] :=
  decode_failure_is_value
    (subscribe (mkChildBus "http://localhost:5000") "TOKEN_CREATED" 1).1
    ⟨"http://localhost:5000", .notJson "not json", 0⟩ rfl rfl

/-- Claim C9: registerIframe hand-off. For an event that is a decoded
ready-type Action from an allow-listed origin, registerIframe appends the
event's source handle to the registry when absent and is a no-op when
present; and its result depends only on the source handle, never on the
event's data — the type matching is the caller's job. -/
theorem registerIframe_handoff (wl : List String) (st : HostApp)
    (ev : MessageEvent) (a : Action)
    (hor : ev.origin ∈ wl) (hready : decode ev.data = .ok a)
    (hty : a.type = "IFRAME-LOADED") :
    (ev.source ∉ st.peers →
      (registerIframe st ev).peers = st.peers ++ [ev.source]) ∧
    (ev.source ∈ st.peers → registerIframe st ev = st) ∧
    (∀ ev2 : MessageEvent, ev2.source = ev.source →
      registerIframe st ev2 = registerIframe st ev) := by
  refine ⟨fun h => ?_, fun h => ?_, fun ev2 h => ?_⟩ <;>
    simp [registerIframe, h]

/-- Witness for C9: a ready announcement from peer 7 on an empty registry
registers exactly peer 7, and any same-source event acts identically. -/
theorem registerIframe_handoff_witness :
    ((7 : Nat) ∉ ([] : List Nat) →
      (registerIframe ⟨[], none⟩ ⟨"http://localhost:5001",
        encode ⟨"IFRAME-LOADED", none⟩, 7⟩).peers = [] ++ [7]) ∧
    ((7 : Nat) ∈ ([] : List Nat) →
      registerIframe ⟨[], none⟩ ⟨"http://localhost:5001",
        encode ⟨"IFRAME-LOADED", none⟩, 7⟩ = ⟨[], none⟩) ∧
    (∀ ev2 : MessageEvent, ev2.source = 7 →
      registerIframe ⟨[], none⟩ ev2 =
        registerIframe ⟨[], none⟩ ⟨"http://localhost:5001",
          encode ⟨"IFRAME-LOADED", none⟩, 7⟩) :=
  registerIframe_handoff ["http://localhost:5001"] ⟨[], none⟩
    ⟨"http://localhost:5001", encode ⟨"IFRAME-LOADED", none⟩, 7⟩
    ⟨"IFRAME-LOADED", none⟩ (by decide) rfl rfl

/-- Claim C10: host-side decoding is a bare JSON.parse in application code.
On a malformed payload from a trusted origin the parse raises, the raised
fault propagates out of the handler's try body (the bus offers no
non-throwing host-side decode), and it is the application's catch in
messageHandler that contains it, logging and leaving the host state
unchanged. -/
theorem host_bare_parse_contained (wl : List String) (st : HostApp)
    (ev : MessageEvent) (s : String)
    (hdata : ev.data = .notJson s) (hor : ev.origin ∈ wl) :
    jsonParse ev.data = .error (.syntaxError s) ∧
    hostTryBody st ev = .error (.syntaxError s) ∧
    messageHandler wl st ev = (st, [.errorCaught]) := by
  have h1 : jsonParse ev.data = .error (.syntaxError s) := by
    rw [hdata]; rfl
  have h2 : hostTryBody st ev = .error (.syntaxError s) := by
    simp only [hostTryBody, h1]
    rfl
  exact ⟨h1, h2, by simp [messageHandler, hor, h2]⟩

/-- Witness for C10: the spec scenario input, raw string "not json" from a
trusted origin; the parse error is caught and the state survives. -/
theorem host_bare_parse_contained_witness :
    jsonParse (Wire.notJson "not json") = .error (.syntaxError "not json") ∧
    hostTryBody ⟨[7], some (.str "keep")⟩
      ⟨"http://localhost:5001", .notJson "not json", 7⟩ =
      .error (.syntaxError "not json") ∧
    messageHandler ["http://localhost:5001"] ⟨[7], some (.str "keep")⟩
      ⟨"http://localhost:5001", .notJson "not json", 7⟩ =
      (⟨[7], some (.str "keep")⟩, [.errorCaught]) :=
  host_bare_parse_contained ["http://localhost:5001"]
    ⟨[7], some (.str "keep")⟩
    ⟨"http://localhost:5001", .notJson "not json", 7⟩ "not json"
    rfl (by decide)

end Microfi
